import Mathlib

/-!
Verification of the reconciliation engine of the apstra-ansible-collection.

The development shallowly embeds the per-resource-kind reconciliation
functions of plugins/modules/resources.py, design.py and blueprint.py:
JSON-like values model the deserialized bodies exchanged with the remote
service, Python dictionary subscripting and iteration are modelled as
fallible operations (KeyError / TypeError), and each module function is a
pure function from its inputs (parsed inventory body, module parameters,
transport responses) to the list of mutating calls it issues together with
its terminal outcome (exit_json, fail_json, or an uncaught exception).
-/

namespace Apstra

/-- JSON-like value: the shape of deserialized request and response bodies
and of module parameters. -/
inductive JVal where
  | str : String → JVal
  | num : Int → JVal
  | bool : Bool → JVal
  | null : JVal
  | list : List JVal → JVal
  | obj : List (String × JVal) → JVal

mutual

/-- Structural equality on JSON values, modelling the Python equality test
used by the identity scans. -/
def JVal.beq : JVal → JVal → Bool
  | .str a, .str b => a == b
  | .num a, .num b => a == b
  | .bool a, .bool b => a == b
  | .null, .null => true
  | .list a, .list b => beqList a b
  | .obj a, .obj b => beqObj a b
  | _, _ => false

def beqList : List JVal → List JVal → Bool
  | [], [] => true
  | x :: xs, y :: ys => JVal.beq x y && beqList xs ys
  | _, _ => false

def beqObj : List (String × JVal) → List (String × JVal) → Bool
  | [], [] => true
  | (k1, v1) :: xs, (k2, v2) :: ys => k1 == k2 && JVal.beq v1 v2 && beqObj xs ys
  | _, _ => false

end

instance : BEq JVal := ⟨JVal.beq⟩

mutual

/-- Python repr of a JSON value, used for f-string interpolation of
non-string values. -/
def JVal.pyRepr : JVal → String
  | .str s => "'" ++ s ++ "'"
  | .num n => toString n
  | .bool true => "True"
  | .bool false => "False"
  | .null => "None"
  | .list l => "[" ++ pyReprList l ++ "]"
  | .obj kvs => "\x7b" ++ pyReprObj kvs ++ "\x7d"

def pyReprList : List JVal → String
  | [] => ""
  | [x] => JVal.pyRepr x
  | x :: xs => JVal.pyRepr x ++ ", " ++ pyReprList xs

def pyReprObj : List (String × JVal) → String
  | [] => ""
  | [(k, v)] => "'" ++ k ++ "': " ++ JVal.pyRepr v
  | (k, v) :: xs => "'" ++ k ++ "': " ++ JVal.pyRepr v ++ ", " ++ pyReprObj xs

end

/-- Python str() of a JSON value, as used by f-string interpolation when
building request paths such as resources/ip-pools/{id}. -/
def JVal.fstr : JVal → String
  | .str s => s
  | v => v.pyRepr

/-- Python exception raised by dictionary subscripting or iteration. -/
inductive PyErr where
  | keyError : String → PyErr
  | typeError : PyErr

/-- Test whether a value is a Python dict, modelling isinstance(x, dict). -/
def JVal.isObj : JVal → Bool
  | .obj _ => true
  | _ => false

/-- Python subscript d[k] with a string key: returns the value stored under
the first occurrence of the key in a dict, raises KeyError when the key is
missing, and raises TypeError on every non-dict value. -/
def JVal.get : JVal → String → Except PyErr JVal
  | .obj kvs, k =>
      match kvs.find? (fun kv => kv.1 == k) with
      | some kv => .ok kv.2
      | none => .error (.keyError k)
  | _, _ => .error .typeError

/-- Python iteration (for each in x): a list yields its elements, a dict
yields its keys in insertion order, a string yields its characters as
one-character strings, and every other value raises TypeError. -/
def pyIter : JVal → Except PyErr (List JVal)
  | .list l => .ok l
  | .obj kvs => .ok (kvs.map (fun kv => JVal.str kv.1))
  | .str s => .ok (s.data.map (fun c => JVal.str c.toString))
  | _ => .error .typeError

/-- Transport response as the modules observe it: a numeric status code, the
deserialized body, and the diagnostic info string. -/
structure Resp where
  status_code : Int
  json : JVal
  info : String

/-- Remote call issued through the transport collaborator. -/
inductive Call where
  | get : String → Call
  | post : String → JVal → Call
  | delete : String → Call

/-- Terminal outcome of a module function: exit_json with changed flag and
data, fail_json with a message, or an uncaught Python exception (which the
main wrapper surfaces as a module failure). -/
inductive Outcome where
  | exited : Bool → JVal → Outcome
  | failed : String → Outcome
  | raised : PyErr → Outcome

/-- Message used by the dictionary-shape check of the fetched body. -/
def dictFormatMsg : String :=
  "The response returned is not in a dictionary format, contant support"

/-- Prefix of the failure message for a non-200 inventory fetch. -/
def fetchFailPrefix : String :=
  "Failed to receive a response from the API, here is the response information to help you debug : "

/-- Value of an optional entry of a match record, None mapping to null. -/
def optJ : Option JVal → JVal
  | some v => v
  | none => .null

/-- Match record of the pool-style scans: display_name, id, provisioned. -/
structure PoolMatch where
  display_name : Option JVal
  id : Option JVal
  provisioned : Bool

/-- Dict form of a pool match record, as reported by exit_json. -/
def PoolMatch.toJVal (m : PoolMatch) : JVal :=
  .obj [("display_name", optJ m.display_name), ("id", optJ m.id),
        ("provisioned", .bool m.provisioned)]

/-- Match record of the label-style scans (interface maps, blueprints). -/
structure LMatch where
  id : Option JVal
  label : Option JVal
  provisioned : Bool

/-- Dict form of a label match record, as reported by exit_json. -/
def LMatch.toJVal (m : LMatch) : JVal :=
  .obj [("id", optJ m.id), ("label", optJ m.label),
        ("provisioned", .bool m.provisioned)]

/-- Match record of the id-style scan (rack types). -/
structure IdMatch where
  id : Option JVal
  provisioned : Bool

/-- Dict form of an id match record, as reported by exit_json. -/
def IdMatch.toJVal (m : IdMatch) : JVal :=
  .obj [("id", optJ m.id), ("provisioned", .bool m.provisioned)]

/-- Identity scan over the fetched items for the pool-style kinds
(resources.py, also logical devices of design.py): every entry whose
display_name equals the declared display_name overwrites the match record,
so the last match in snapshot order wins; subscripting an entry that lacks
the display_name field (or, on a match, the id field) raises. -/
def scanPool : List JVal → JVal → PoolMatch → Except PyErr PoolMatch
  | [], _, acc => .ok acc
  | e :: rest, target, acc =>
      match e.get "display_name" with
      | .error er => .error er
      | .ok dn =>
          if (dn == target) = true then
            match e.get "id" with
            | .error er => .error er
            | .ok i => scanPool rest target ⟨some dn, some i, true⟩
          else scanPool rest target acc

/-- Identity scan on the label field (interface_maps of design.py and
build_blueprint of blueprint.py). -/
def scanLabel : List JVal → JVal → LMatch → Except PyErr LMatch
  | [], _, acc => .ok acc
  | e :: rest, target, acc =>
      match e.get "label" with
      | .error er => .error er
      | .ok lbl =>
          if (lbl == target) = true then
            match e.get "id" with
            | .error er => .error er
            | .ok i => scanLabel rest target ⟨some i, some lbl, true⟩
          else scanLabel rest target acc

/-- Identity scan on the id field (rack_types of design.py). -/
def scanId : List JVal → JVal → IdMatch → Except PyErr IdMatch
  | [], _, acc => .ok acc
  | e :: rest, target, acc =>
      match e.get "id" with
      | .error er => .error er
      | .ok i =>
          if (i == target) = true then scanId rest target ⟨some i, true⟩
          else scanId rest target acc

/-- Identity scan of templates of design.py: each iteration compares the
entry display_name against the display_name looked up inside the declared
design_template dict, so a declaration lacking that key raises on the first
iteration. -/
def scanTempl : List JVal → JVal → PoolMatch → Except PyErr PoolMatch
  | [], _, acc => .ok acc
  | e :: rest, dt, acc =>
      match e.get "display_name" with
      | .error er => .error er
      | .ok dn =>
          match dt.get "display_name" with
          | .error er => .error er
          | .ok target =>
              if (dn == target) = true then
                match e.get "id" with
                | .error er => .error er
                | .ok i => scanTempl rest dt ⟨some dn, some i, true⟩
              else scanTempl rest dt acc

/-- Module parameters consumed by the ipv4_pool function. -/
structure PoolParams where
  display_name : JVal
  state : String
  subnets : List JVal
  tags : JVal

/-- Payload transformer of ipv4_pool (resources.py lines 446 to 454): each
bare subnet value is wrapped into a single-key network record, order
preserved, and display_name and tags pass through. -/
def ipv4Payload (p : PoolParams) : JVal :=
  .obj [("display_name", p.display_name),
        ("subnets", .list (p.subnets.map (fun s => .obj [("network", s)]))),
        ("tags", p.tags)]

/-- Embedding of ipv4_pool (resources.py lines 390 to 461): dictionary-shape
check, identity scan over resources items, then the four-branch state
machine; the create branch posts the transformed payload and reads the id
field of the response body before exiting. -/
def ipv4_pool (resources : JVal) (p : PoolParams) (deleteResp postResp : Resp) :
    List Call × Outcome :=
  if resources.isObj = true then
    match resources.get "items" with
    | .error e => ([], .raised e)
    | .ok itemsVal =>
        match pyIter itemsVal with
        | .error e => ([], .raised e)
        | .ok items =>
            match scanPool items p.display_name ⟨none, none, false⟩ with
            | .error e => ([], .raised e)
            | .ok m =>
                if p.state = "absent" then
                  if m.provisioned = true then
                    ([.delete ("resources/ip-pools/" ++ (optJ m.id).fstr)],
                     .exited true deleteResp.json)
                  else
                    ([], .exited false (.str "IP Pool does not exist, exiting"))
                else
                  if m.provisioned = false then
                    match postResp.json.get "id" with
                    | .error e =>
                        ([.post "resources/ip-pools" (ipv4Payload p)], .raised e)
                    | .ok _ =>
                        ([.post "resources/ip-pools" (ipv4Payload p)],
                         .exited true postResp.json)
                  else ([], .exited false m.toJVal)
  else ([], .failed dictFormatMsg)

/-- Module parameters consumed by the logical_device function. -/
structure LDParams where
  display_name : JVal
  panels : JVal
  state : String

/-- Payload of the logical device create branch (design.py lines 714
to 715). -/
def ldPayload (p : LDParams) : JVal :=
  .obj [("display_name", p.display_name), ("panels", p.panels)]

/-- Embedding of logical_device (design.py lines 672 to 722); the
dictionary-shape check is performed by the design core before dispatch, so
the function itself subscripts resources items directly. -/
def logical_device (resources : JVal) (p : LDParams) (deleteResp postResp : Resp) :
    List Call × Outcome :=
  match resources.get "items" with
  | .error e => ([], .raised e)
  | .ok itemsVal =>
      match pyIter itemsVal with
      | .error e => ([], .raised e)
      | .ok items =>
          match scanPool items p.display_name ⟨none, none, false⟩ with
          | .error e => ([], .raised e)
          | .ok m =>
              if p.state = "absent" then
                if m.provisioned = true then
                  ([.delete ("design/logical-devices/" ++ (optJ m.id).fstr)],
                   .exited true deleteResp.json)
                else
                  ([], .exited false (.str "Logical Device does not exist, exiting"))
              else
                if m.provisioned = false then
                  match postResp.json.get "id" with
                  | .error e =>
                      ([.post "design/logical-devices" (ldPayload p)], .raised e)
                  | .ok _ =>
                      ([.post "design/logical-devices" (ldPayload p)],
                       .exited true postResp.json)
                else ([], .exited false m.toJVal)

/-- Module parameters consumed by the rack_types function. -/
structure RackParams where
  access_switches : JVal
  description : JVal
  display_name : JVal
  id : JVal
  leafs : JVal
  logical_devices : JVal
  servers : JVal
  state : String

/-- Payload of the rack type create branch (design.py lines 603 to 609). -/
def rackPayload (p : RackParams) : JVal :=
  .obj [("access_switches", p.access_switches), ("description", p.description),
        ("display_name", p.display_name), ("id", p.id), ("leafs", p.leafs),
        ("logical_devices", p.logical_devices), ("servers", p.servers)]

/-- Embedding of rack_types (design.py lines 563 to 615); the create branch
exits with the raw response body without inspecting the response status and
without reading any field of it. -/
def rack_types (resources : JVal) (p : RackParams) (deleteResp postResp : Resp) :
    List Call × Outcome :=
  match resources.get "items" with
  | .error e => ([], .raised e)
  | .ok itemsVal =>
      match pyIter itemsVal with
      | .error e => ([], .raised e)
      | .ok items =>
          match scanId items p.id ⟨none, false⟩ with
          | .error e => ([], .raised e)
          | .ok m =>
              if p.state = "absent" then
                if m.provisioned = true then
                  ([.delete ("design/rack-types/" ++ (optJ m.id).fstr)],
                   .exited true deleteResp.json)
                else
                  ([], .exited false (.str "Rack Type does not exist, exiting"))
              else
                if m.provisioned = false then
                  ([.post "design/rack-types" (rackPayload p)],
                   .exited true postResp.json)
                else ([], .exited false m.toJVal)

/-- Module parameters consumed by the interface_maps function. -/
structure IMParams where
  device_profile_id : JVal
  logical_device_id : JVal
  interfaces : JVal
  label : JVal
  state : String

/-- Payload of the interface map create branch (design.py lines 660
to 663). -/
def imPayload (p : IMParams) : JVal :=
  .obj [("device_profile_id", p.device_profile_id),
        ("logical_device_id", p.logical_device_id),
        ("interfaces", p.interfaces), ("label", p.label)]

/-- Embedding of interface_maps (design.py lines 618 to 669). -/
def interface_maps (resources : JVal) (p : IMParams) (deleteResp postResp : Resp) :
    List Call × Outcome :=
  match resources.get "items" with
  | .error e => ([], .raised e)
  | .ok itemsVal =>
      match pyIter itemsVal with
      | .error e => ([], .raised e)
      | .ok items =>
          match scanLabel items p.label ⟨none, none, false⟩ with
          | .error e => ([], .raised e)
          | .ok m =>
              if p.state = "absent" then
                if m.provisioned = true then
                  ([.delete ("design/interface-maps/" ++ (optJ m.id).fstr)],
                   .exited true deleteResp.json)
                else
                  ([], .exited false
                    (.str "Interface Mapping does not exist, exiting"))
              else
                if m.provisioned = false then
                  ([.post "design/interface-maps" (imPayload p)],
                   .exited true postResp.json)
                else ([], .exited false m.toJVal)

/-- Module parameters consumed by the templates function. -/
structure TemplParams where
  design_template : JVal
  state : String

/-- Payload build of the templates create branch (design.py lines 768
to 779): ten keyword arguments evaluated left to right, each subscripting
the declared design_template dict and raising when the key is missing. -/
def templPayload (dt : JVal) : Except PyErr JVal := do
  let a ← dt.get "asn_allocation_policy"
  let b ← dt.get "dhcp_service_intent"
  let c ← dt.get "display_name"
  let d ← dt.get "external_routing_policy"
  let e ← dt.get "fabric_addressing_policy"
  let f ← dt.get "rack_type_counts"
  let g ← dt.get "rack_types"
  let h ← dt.get "spine"
  let i ← dt.get "type"
  let j ← dt.get "virtual_network_policy"
  .ok (.obj [("asn_allocation_policy", a), ("dhcp_service_intent", b),
             ("display_name", c), ("external_routing_policy", d),
             ("fabric_addressing_policy", e), ("rack_type_counts", f),
             ("rack_types", g), ("spine", h), ("type", i),
             ("virtual_network_policy", j)])

/-- Embedding of templates (design.py lines 725 to 786). -/
def templates (resources : JVal) (p : TemplParams) (deleteResp postResp : Resp) :
    List Call × Outcome :=
  match resources.get "items" with
  | .error e => ([], .raised e)
  | .ok itemsVal =>
      match pyIter itemsVal with
      | .error e => ([], .raised e)
      | .ok items =>
          match scanTempl items p.design_template ⟨none, none, false⟩ with
          | .error e => ([], .raised e)
          | .ok m =>
              if p.state = "absent" then
                if m.provisioned = true then
                  ([.delete ("design/templates/" ++ (optJ m.id).fstr)],
                   .exited true deleteResp.json)
                else
                  ([], .exited false (.str "Template does not exist, exiting"))
              else
                if m.provisioned = false then
                  match templPayload p.design_template with
                  | .error e => ([], .raised e)
                  | .ok payload =>
                      ([.post "design/templates" payload],
                       .exited true postResp.json)
                else ([], .exited false m.toJVal)

/-- Embedding of the design core function (design.py lines 789 to 823)
specialized to the templates type: the inventory fetch is issued first, its
status is checked against 200, the body passes the dictionary-shape check,
and only then is the templates function dispatched. The returned call list
therefore always starts with the inventory read. -/
def designCoreTemplates (p : TemplParams) (getResp deleteResp postResp : Resp) :
    List Call × Outcome :=
  if getResp.status_code = 200 then
    if getResp.json.isObj = true then
      let r := templates getResp.json p deleteResp postResp
      (Call.get "design/templates" :: r.1, r.2)
    else ([Call.get "design/templates"], .failed dictFormatMsg)
  else
    ([Call.get "design/templates"], .failed (fetchFailPrefix ++ getResp.info))

/-- Module parameters consumed by the build_blueprint function. -/
structure BPParams where
  design : JVal
  init_type : JVal
  template_id : JVal
  label : JVal
  state : String

/-- Payload of the blueprint create branch (blueprint.py lines 168
to 171). -/
def bpPayload (p : BPParams) : JVal :=
  .obj [("design", p.design), ("init_type", p.init_type),
        ("template_id", p.template_id), ("label", p.label)]

/-- Embedding of build_blueprint (blueprint.py lines 126 to 177): identity
scan on the label field, delete against blueprints/{id}, create posting to
blueprints; the not-found message of the absent branch names Interface
Mapping rather than blueprint. -/
def build_blueprint (resources : JVal) (p : BPParams) (deleteResp postResp : Resp) :
    List Call × Outcome :=
  match resources.get "items" with
  | .error e => ([], .raised e)
  | .ok itemsVal =>
      match pyIter itemsVal with
      | .error e => ([], .raised e)
      | .ok items =>
          match scanLabel items p.label ⟨none, none, false⟩ with
          | .error e => ([], .raised e)
          | .ok m =>
              if p.state = "absent" then
                if m.provisioned = true then
                  ([.delete ("blueprints/" ++ (optJ m.id).fstr)],
                   .exited true deleteResp.json)
                else
                  ([], .exited false
                    (.str "Interface Mapping does not exist, exiting"))
              else
                if m.provisioned = false then
                  ([.post "blueprints" (bpPayload p)],
                   .exited true postResp.json)
                else ([], .exited false m.toJVal)

/-- Scan of a concatenation: the scan of the prefix runs first and its
resulting record is fed into the scan of the suffix, with errors of the
prefix propagating. -/
theorem scanPool_append (xs ys : List JVal) (target : JVal) (acc : PoolMatch) :
    scanPool (xs ++ ys) target acc =
      match scanPool xs target acc with
      | .ok m => scanPool ys target m
      | .error e => .error e := by
  induction xs generalizing acc with
  | nil => simp [scanPool]
  | cons x rest ih =>
      simp only [List.cons_append, scanPool]
      cases hx : x.get "display_name" with
      | error er => simp
      | ok dn =>
          by_cases hm : (dn == target) = true
          · simp only [hm, if_true]
            cases hx2 : x.get "id" with
            | error er => simp
            | ok i => exact ih _
          · simp only [hm, if_false]
            exact ih _

/-- Scan of a segment in which every entry carries the display_name field
with a value different from the target: the accumulated record passes
through unchanged. -/
theorem scanPool_nomatch (ys : List JVal) (target : JVal) (acc : PoolMatch)
    (h : ∀ y ∈ ys, ∃ dy, y.get "display_name" = .ok dy ∧ (dy == target) = false) :
    scanPool ys target acc = .ok acc := by
  induction ys with
  | nil => simp [scanPool]
  | cons y rest ih =>
      obtain ⟨dy, hdy, hne⟩ := h y (List.mem_cons_self y rest)
      simp only [scanPool, hdy, hne, if_false]
      exact ih (fun z hz => h z (List.mem_cons_of_mem y hz))

/-- Scan result when the last matching entry is known: whatever the prefix
scan produced is overwritten by the values of the matching entry, and the
non-matching suffix leaves it untouched. -/
theorem scanPool_last (xs ys : List JVal) (e : JVal) (target dn i : JVal)
    (m0 : PoolMatch)
    (hpre : scanPool xs target ⟨none, none, false⟩ = .ok m0)
    (hdn : e.get "display_name" = .ok dn)
    (hmatch : (dn == target) = true)
    (hi : e.get "id" = .ok i)
    (hys : ∀ y ∈ ys, ∃ dy, y.get "display_name" = .ok dy ∧ (dy == target) = false) :
    scanPool (xs ++ e :: ys) target ⟨none, none, false⟩ =
      .ok ⟨some dn, some i, true⟩ := by
  rw [scanPool_append, hpre]
  simp only [scanPool, hdn, hmatch, if_true, hi]
  exact scanPool_nomatch ys target _ hys

/-- Scan of a concatenation for the label-style scan. -/
theorem scanLabel_append (xs ys : List JVal) (target : JVal) (acc : LMatch) :
    scanLabel (xs ++ ys) target acc =
      match scanLabel xs target acc with
      | .ok m => scanLabel ys target m
      | .error e => .error e := by
  induction xs generalizing acc with
  | nil => simp [scanLabel]
  | cons x rest ih =>
      simp only [List.cons_append, scanLabel]
      cases hx : x.get "label" with
      | error er => simp
      | ok lbl =>
          by_cases hm : (lbl == target) = true
          · simp only [hm, if_true]
            cases hx2 : x.get "id" with
            | error er => simp
            | ok i => exact ih _
          · simp only [hm, if_false]
            exact ih _

/-- Scan of an all-non-matching segment for the label-style scan. -/
theorem scanLabel_nomatch (ys : List JVal) (target : JVal) (acc : LMatch)
    (h : ∀ y ∈ ys, ∃ ly, y.get "label" = .ok ly ∧ (ly == target) = false) :
    scanLabel ys target acc = .ok acc := by
  induction ys with
  | nil => simp [scanLabel]
  | cons y rest ih =>
      obtain ⟨ly, hly, hne⟩ := h y (List.mem_cons_self y rest)
      simp only [scanLabel, hly, hne, if_false]
      exact ih (fun z hz => h z (List.mem_cons_of_mem y hz))

/-- Scan result for the label-style scan when the last matching entry is
known. -/
theorem scanLabel_last (xs ys : List JVal) (e : JVal) (target lbl i : JVal)
    (m0 : LMatch)
    (hpre : scanLabel xs target ⟨none, none, false⟩ = .ok m0)
    (hlbl : e.get "label" = .ok lbl)
    (hmatch : (lbl == target) = true)
    (hi : e.get "id" = .ok i)
    (hys : ∀ y ∈ ys, ∃ ly, y.get "label" = .ok ly ∧ (ly == target) = false) :
    scanLabel (xs ++ e :: ys) target ⟨none, none, false⟩ =
      .ok ⟨some i, some lbl, true⟩ := by
  rw [scanLabel_append, hpre]
  simp only [scanLabel, hlbl, hmatch, if_true, hi]
  exact scanLabel_nomatch ys target _ hys

/-- Lookup of the items key on a body holding exactly that key. -/
theorem get_items (l : JVal) : (JVal.obj [("items", l)]).get "items" = .ok l := rfl

/-- C1: when desiredState is present and the identity scan finds no match,
the engine issues exactly one create (POST) call to the collection path of
the kind with the payload produced by its transformer, and exits with
changed true and data equal to the remote create response body (which the
pool and logical device create branches additionally require to carry an id
field); stated for the ipv4 pool and logical device kinds. -/
theorem c1_create_once
    (items : List JVal) (p : PoolParams) (lp : LDParams)
    (d post : Resp) (m m2 : PoolMatch) (i : JVal)
    (hscan : scanPool items p.display_name ⟨none, none, false⟩ = .ok m)
    (hm : m.provisioned = false)
    (hstate : p.state = "present")
    (hid : post.json.get "id" = .ok i)
    (hscan2 : scanPool items lp.display_name ⟨none, none, false⟩ = .ok m2)
    (hm2 : m2.provisioned = false)
    (hstate2 : lp.state = "present") :
    ipv4_pool (.obj [("items", .list items)]) p d post =
      ([.post "resources/ip-pools" (ipv4Payload p)], .exited true post.json) ∧
    logical_device (.obj [("items", .list items)]) lp d post =
      ([.post "design/logical-devices" (ldPayload lp)], .exited true post.json) := by
  constructor
  · simp [ipv4_pool, JVal.isObj, get_items, pyIter, hscan, hstate, hm, hid]
  · simp [logical_device, get_items, pyIter, hscan2, hstate2, hm2, hid]

/-- Witness for C1 at a concrete empty snapshot. -/
theorem c1_create_once_witness :
    ipv4_pool (.obj [("items", .list [])])
        ⟨.str "a", "present", [.str "10.0.0.0/24"], .list []⟩
        ⟨200, .null, ""⟩ ⟨201, .obj [("id", .str "x")], ""⟩ =
      ([.post "resources/ip-pools"
          (ipv4Payload ⟨.str "a", "present", [.str "10.0.0.0/24"], .list []⟩)],
       .exited true (.obj [("id", .str "x")])) ∧
    logical_device (.obj [("items", .list [])])
        ⟨.str "a", .null, "present"⟩
        ⟨200, .null, ""⟩ ⟨201, .obj [("id", .str "x")], ""⟩ =
      ([.post "design/logical-devices" (ldPayload ⟨.str "a", .null, "present"⟩)],
       .exited true (.obj [("id", .str "x")])) :=
  c1_create_once [] ⟨.str "a", "present", [.str "10.0.0.0/24"], .list []⟩
    ⟨.str "a", .null, "present"⟩ ⟨200, .null, ""⟩
    ⟨201, .obj [("id", .str "x")], ""⟩ ⟨none, none, false⟩ ⟨none, none, false⟩
    (.str "x") rfl rfl rfl rfl rfl rfl rfl

/-- C2: when desiredState is absent and the identity scan matched an entry,
the engine issues exactly one delete call to the collection path extended
with the matched remote id and exits with changed true and data equal to
the remote delete response body; stated for the ipv4 pool and logical
device kinds. -/
theorem c2_delete_on_match
    (items : List JVal) (p : PoolParams) (lp : LDParams) (d post : Resp)
    (dn dn2 i i2 : JVal)
    (hscan : scanPool items p.display_name ⟨none, none, false⟩ =
      .ok ⟨some dn, some i, true⟩)
    (hstate : p.state = "absent")
    (hscan2 : scanPool items lp.display_name ⟨none, none, false⟩ =
      .ok ⟨some dn2, some i2, true⟩)
    (hstate2 : lp.state = "absent") :
    ipv4_pool (.obj [("items", .list items)]) p d post =
      ([.delete ("resources/ip-pools/" ++ i.fstr)], .exited true d.json) ∧
    logical_device (.obj [("items", .list items)]) lp d post =
      ([.delete ("design/logical-devices/" ++ i2.fstr)], .exited true d.json) := by
  constructor
  · simp [ipv4_pool, JVal.isObj, get_items, pyIter, hscan, hstate, optJ]
  · simp [logical_device, get_items, pyIter, hscan2, hstate2, optJ]

/-- Witness for C2 at a concrete one-entry snapshot. -/
theorem c2_delete_on_match_witness :
    ipv4_pool
        (.obj [("items",
          .list [.obj [("display_name", .str "a"), ("id", .str "p7")]])])
        ⟨.str "a", "absent", [], .list []⟩ ⟨200, .str "gone", ""⟩
        ⟨201, .null, ""⟩ =
      ([.delete "resources/ip-pools/p7"], .exited true (.str "gone")) ∧
    logical_device
        (.obj [("items",
          .list [.obj [("display_name", .str "a"), ("id", .str "p7")]])])
        ⟨.str "a", .null, "absent"⟩ ⟨200, .str "gone", ""⟩ ⟨201, .null, ""⟩ =
      ([.delete "design/logical-devices/p7"], .exited true (.str "gone")) :=
  c2_delete_on_match
    [.obj [("display_name", .str "a"), ("id", .str "p7")]]
    ⟨.str "a", "absent", [], .list []⟩ ⟨.str "a", .null, "absent"⟩
    ⟨200, .str "gone", ""⟩ ⟨201, .null, ""⟩
    (.str "a") (.str "a") (.str "p7") (.str "p7") rfl rfl rfl rfl

/-- C3: the two no-op branches issue no remote mutation, exit with changed
false, and signal no error: with desiredState absent and no match the data
is the does-not-exist message, and with desiredState present and a match
the data is the match record, independently of any attribute drift of the
matched entry (the scan only reads display_name and id); stated for the
ipv4 pool kind. -/
theorem c3_noop_branches
    (items items2 : List JVal) (p p2 : PoolParams)
    (d post d2 post2 : Resp) (m m2 : PoolMatch)
    (hscan : scanPool items p.display_name ⟨none, none, false⟩ = .ok m)
    (hm : m.provisioned = false)
    (hstate : p.state = "absent")
    (hscan2 : scanPool items2 p2.display_name ⟨none, none, false⟩ = .ok m2)
    (hm2 : m2.provisioned = true)
    (hstate2 : p2.state = "present") :
    ipv4_pool (.obj [("items", .list items)]) p d post =
      ([], .exited false (.str "IP Pool does not exist, exiting")) ∧
    ipv4_pool (.obj [("items", .list items2)]) p2 d2 post2 =
      ([], .exited false m2.toJVal) := by
  constructor
  · simp [ipv4_pool, JVal.isObj, get_items, pyIter, hscan, hstate, hm]
  · simp [ipv4_pool, JVal.isObj, get_items, pyIter, hscan2, hstate2, hm2]

/-- Witness for C3: absent against an empty snapshot, and present against a
snapshot whose matching entry carries drifted attributes. -/
theorem c3_noop_branches_witness :
    ipv4_pool (.obj [("items", .list [])]) ⟨.str "a", "absent", [], .list []⟩
        ⟨200, .null, ""⟩ ⟨201, .null, ""⟩ =
      ([], .exited false (.str "IP Pool does not exist, exiting")) ∧
    ipv4_pool
        (.obj [("items",
          .list [.obj [("display_name", .str "a"), ("id", .str "p1"),
                       ("subnets", .list [.obj [("network", .str "9.9.9.0/24")]])]])])
        ⟨.str "a", "present", [.str "10.0.0.0/24"], .list []⟩
        ⟨200, .null, ""⟩ ⟨201, .null, ""⟩ =
      ([], .exited false
        (PoolMatch.toJVal ⟨some (.str "a"), some (.str "p1"), true⟩)) :=
  c3_noop_branches []
    [.obj [("display_name", .str "a"), ("id", .str "p1"),
           ("subnets", .list [.obj [("network", .str "9.9.9.0/24")]])]]
    ⟨.str "a", "absent", [], .list []⟩
    ⟨.str "a", "present", [.str "10.0.0.0/24"], .list []⟩
    ⟨200, .null, ""⟩ ⟨201, .null, ""⟩ ⟨200, .null, ""⟩ ⟨201, .null, ""⟩
    ⟨none, none, false⟩ ⟨some (.str "a"), some (.str "p1"), true⟩
    rfl rfl rfl rfl rfl rfl

/-- C4: when several snapshot entries carry the declared identity value, the
match record used by the state machine is the one of the last matching
entry in snapshot order: a subsequent delete targets its remote id, and a
present no-op reports its record; stated for the ipv4 pool and interface
map kinds. -/
theorem c4_last_match_wins
    (xs ys xs2 ys2 : List JVal) (e e2 : JVal)
    (p p2 : PoolParams) (q q2 : IMParams)
    (m0 : PoolMatch) (n0 : LMatch)
    (dn i lbl i2 : JVal) (d post : Resp)
    (hpre : scanPool xs p.display_name ⟨none, none, false⟩ = .ok m0)
    (_hdup : ∃ x ∈ xs, ∃ dx,
      x.get "display_name" = .ok dx ∧ (dx == p.display_name) = true)
    (hdn : e.get "display_name" = .ok dn)
    (hmatch : (dn == p.display_name) = true)
    (hi : e.get "id" = .ok i)
    (hys : ∀ y ∈ ys, ∃ dy,
      y.get "display_name" = .ok dy ∧ (dy == p.display_name) = false)
    (hstate : p.state = "absent")
    (hp2 : p2.display_name = p.display_name)
    (hstate2 : p2.state = "present")
    (hpre2 : scanLabel xs2 q.label ⟨none, none, false⟩ = .ok n0)
    (_hdup2 : ∃ x ∈ xs2, ∃ lx, x.get "label" = .ok lx ∧ (lx == q.label) = true)
    (hlbl : e2.get "label" = .ok lbl)
    (hmatch2 : (lbl == q.label) = true)
    (hi2 : e2.get "id" = .ok i2)
    (hys2 : ∀ y ∈ ys2, ∃ ly, y.get "label" = .ok ly ∧ (ly == q.label) = false)
    (hqstate : q.state = "absent")
    (hq2 : q2.label = q.label)
    (hqstate2 : q2.state = "present") :
    ipv4_pool (.obj [("items", .list (xs ++ e :: ys))]) p d post =
      ([.delete ("resources/ip-pools/" ++ i.fstr)], .exited true d.json) ∧
    ipv4_pool (.obj [("items", .list (xs ++ e :: ys))]) p2 d post =
      ([], .exited false (PoolMatch.toJVal ⟨some dn, some i, true⟩)) ∧
    interface_maps (.obj [("items", .list (xs2 ++ e2 :: ys2))]) q d post =
      ([.delete ("design/interface-maps/" ++ i2.fstr)], .exited true d.json) ∧
    interface_maps (.obj [("items", .list (xs2 ++ e2 :: ys2))]) q2 d post =
      ([], .exited false (LMatch.toJVal ⟨some i2, some lbl, true⟩)) := by
  have hs := scanPool_last xs ys e p.display_name dn i m0 hpre hdn hmatch hi hys
  have ht := scanLabel_last xs2 ys2 e2 q.label lbl i2 n0 hpre2 hlbl hmatch2 hi2 hys2
  refine ⟨?_, ?_, ?_, ?_⟩
  · simp [ipv4_pool, JVal.isObj, get_items, pyIter, hs, hstate, optJ]
  · simp [ipv4_pool, JVal.isObj, get_items, pyIter, hp2, hs, hstate2]
  · simp [interface_maps, get_items, pyIter, ht, hqstate, optJ]
  · simp [interface_maps, get_items, pyIter, hq2, ht, hqstate2]

/-- Witness for C4 at snapshots holding two entries with the same identity
value and distinct remote ids. -/
theorem c4_last_match_wins_witness :
    ipv4_pool
        (.obj [("items", .list
          [.obj [("display_name", .str "a"), ("id", .str "p1")],
           .obj [("display_name", .str "a"), ("id", .str "p2")]])])
        ⟨.str "a", "absent", [], .list []⟩ ⟨200, .str "deleted", ""⟩
        ⟨201, .null, ""⟩ =
      ([.delete "resources/ip-pools/p2"], .exited true (.str "deleted")) ∧
    ipv4_pool
        (.obj [("items", .list
          [.obj [("display_name", .str "a"), ("id", .str "p1")],
           .obj [("display_name", .str "a"), ("id", .str "p2")]])])
        ⟨.str "a", "present", [], .list []⟩ ⟨200, .str "deleted", ""⟩
        ⟨201, .null, ""⟩ =
      ([], .exited false
        (PoolMatch.toJVal ⟨some (.str "a"), some (.str "p2"), true⟩)) ∧
    interface_maps
        (.obj [("items", .list
          [.obj [("label", .str "L"), ("id", .str "m1")],
           .obj [("label", .str "L"), ("id", .str "m2")]])])
        ⟨.null, .null, .null, .str "L", "absent"⟩ ⟨200, .str "deleted", ""⟩
        ⟨201, .null, ""⟩ =
      ([.delete "design/interface-maps/m2"], .exited true (.str "deleted")) ∧
    interface_maps
        (.obj [("items", .list
          [.obj [("label", .str "L"), ("id", .str "m1")],
           .obj [("label", .str "L"), ("id", .str "m2")]])])
        ⟨.null, .null, .null, .str "L", "present"⟩ ⟨200, .str "deleted", ""⟩
        ⟨201, .null, ""⟩ =
      ([], .exited false
        (LMatch.toJVal ⟨some (.str "m2"), some (.str "L"), true⟩)) := by
  exact c4_last_match_wins
    [.obj [("display_name", .str "a"), ("id", .str "p1")]] []
    [.obj [("label", .str "L"), ("id", .str "m1")]] []
    (.obj [("display_name", .str "a"), ("id", .str "p2")])
    (.obj [("label", .str "L"), ("id", .str "m2")])
    ⟨.str "a", "absent", [], .list []⟩ ⟨.str "a", "present", [], .list []⟩
    ⟨.null, .null, .null, .str "L", "absent"⟩
    ⟨.null, .null, .null, .str "L", "present"⟩
    ⟨some (.str "a"), some (.str "p1"), true⟩
    ⟨some (.str "m1"), some (.str "L"), true⟩
    (.str "a") (.str "p2") (.str "L") (.str "m2")
    ⟨200, .str "deleted", ""⟩ ⟨201, .null, ""⟩
    rfl ⟨_, List.Mem.head _, .str "a", rfl, rfl⟩ rfl rfl rfl
    (fun y hy => absurd hy (List.not_mem_nil y))
    rfl rfl rfl
    rfl ⟨_, List.Mem.head _, .str "L", rfl, rfl⟩ rfl rfl rfl
    (fun y hy => absurd hy (List.not_mem_nil y))
    rfl rfl rfl

/-- C5: the end-to-end create scenario: an ipv4 pool declared with
display_name cicd_test, one subnet 100.1.1.0/24 and empty tags, state
present, against an empty snapshot, issues exactly one create to
resources/ip-pools whose payload wraps the bare subnet string into a
single-key network record with order preserved and tags the empty list,
and exits with changed true. -/
theorem c5_end_to_end (d post : Resp) (i : JVal)
    (hid : post.json.get "id" = .ok i) :
    ipv4_pool (.obj [("items", .list [])])
        ⟨.str "cicd_test", "present", [.str "100.1.1.0/24"], .list []⟩ d post =
      ([.post "resources/ip-pools"
          (.obj [("display_name", .str "cicd_test"),
                 ("subnets", .list [.obj [("network", .str "100.1.1.0/24")]]),
                 ("tags", .list [])])],
       .exited true post.json) := by
  simp [ipv4_pool, JVal.isObj, get_items, pyIter, scanPool, hid, ipv4Payload]

/-- Witness for C5 with a concrete create response carrying an id. -/
theorem c5_end_to_end_witness :
    ipv4_pool (.obj [("items", .list [])])
        ⟨.str "cicd_test", "present", [.str "100.1.1.0/24"], .list []⟩
        ⟨200, .null, ""⟩ ⟨201, .obj [("id", .str "pool9")], ""⟩ =
      ([.post "resources/ip-pools"
          (.obj [("display_name", .str "cicd_test"),
                 ("subnets", .list [.obj [("network", .str "100.1.1.0/24")]]),
                 ("tags", .list [])])],
       .exited true (.obj [("id", .str "pool9")])) :=
  c5_end_to_end ⟨200, .null, ""⟩ ⟨201, .obj [("id", .str "pool9")], ""⟩
    (.str "pool9") rfl

/-- C10: for the blueprint kind, desiredState absent with no label match
exits with changed false and the literal message naming Interface Mapping
rather than blueprint. -/
theorem c10_blueprint_absent_message
    (items : List JVal) (p : BPParams) (d post : Resp) (m : LMatch)
    (hscan : scanLabel items p.label ⟨none, none, false⟩ = .ok m)
    (hm : m.provisioned = false)
    (hstate : p.state = "absent") :
    build_blueprint (.obj [("items", .list items)]) p d post =
      ([], .exited false (.str "Interface Mapping does not exist, exiting")) := by
  simp [build_blueprint, get_items, pyIter, hscan, hstate, hm]

/-- Witness for C10 at a snapshot holding one non-matching blueprint. -/
theorem c10_blueprint_absent_message_witness :
    build_blueprint
        (.obj [("items", .list [.obj [("label", .str "other"), ("id", .str "b1")]])])
        ⟨.null, .null, .null, .str "cicd_blueprint", "absent"⟩
        ⟨200, .null, ""⟩ ⟨201, .null, ""⟩ =
      ([], .exited false (.str "Interface Mapping does not exist, exiting")) :=
  c10_blueprint_absent_message
    [.obj [("label", .str "other"), ("id", .str "b1")]]
    ⟨.null, .null, .null, .str "cicd_blueprint", "absent"⟩
    ⟨200, .null, ""⟩ ⟨201, .null, ""⟩ ⟨none, none, false⟩ rfl rfl rfl

/-- C6 counterexample: a fetch body whose items key holds an empty dict is
not a map with an items key holding a sequence, yet the engine signals no
error: Python iteration over the empty dict yields an empty snapshot, the
scan finds no match, and a create is issued with changed true. -/
theorem c6_counterexample :
    ipv4_pool (.obj [("items", .obj [])])
        ⟨.str "cicd_test", "present", [.str "100.1.1.0/24"], .list []⟩
        ⟨200, .null, ""⟩ ⟨201, .obj [("id", .str "p1")], ""⟩ =
      ([.post "resources/ip-pools"
          (ipv4Payload
            ⟨.str "cicd_test", "present", [.str "100.1.1.0/24"], .list []⟩)],
       .exited true (.obj [("id", .str "p1")])) := rfl

/-- C6 amended: a fetch body that is not a dict is rejected with the
dictionary-format failure and no mutation; a dict without an items key
raises a KeyError and no mutation; but a dict whose items key holds a
non-sequence is not rejected: an empty dict under items is silently
iterated as an empty snapshot and a create is issued. -/
theorem c6_amended_fetch_shape :
    (∀ (resources : JVal) (p : PoolParams) (d post : Resp),
      resources.isObj = false →
      ipv4_pool resources p d post = ([], .failed dictFormatMsg)) ∧
    (∀ (kvs : List (String × JVal)) (p : PoolParams) (d post : Resp),
      (JVal.obj kvs).get "items" = .error (.keyError "items") →
      ipv4_pool (.obj kvs) p d post = ([], .raised (.keyError "items"))) ∧
    (∀ (p : PoolParams) (d post : Resp) (i : JVal),
      p.state = "present" → post.json.get "id" = .ok i →
      ipv4_pool (.obj [("items", .obj [])]) p d post =
        ([.post "resources/ip-pools" (ipv4Payload p)], .exited true post.json)) := by
  refine ⟨?_, ?_, ?_⟩
  · intro resources p d post h
    simp [ipv4_pool, h]
  · intro kvs p d post h
    simp [ipv4_pool, JVal.isObj, h]
  · intro p d post i hstate hid
    simp [ipv4_pool, JVal.isObj, get_items, pyIter, scanPool, hstate, hid]

/-- Witness for the amended C6 at a bare sequence body, a body without an
items key, and a body whose items key holds an empty dict. -/
theorem c6_amended_fetch_shape_witness :
    ipv4_pool (.list [.obj [("display_name", .str "a")]])
        ⟨.str "a", "present", [], .list []⟩ ⟨200, .null, ""⟩ ⟨201, .null, ""⟩ =
      ([], .failed dictFormatMsg) ∧
    ipv4_pool (.obj [("total", .num 0)])
        ⟨.str "a", "present", [], .list []⟩ ⟨200, .null, ""⟩ ⟨201, .null, ""⟩ =
      ([], .raised (.keyError "items")) ∧
    ipv4_pool (.obj [("items", .obj [])])
        ⟨.str "a", "present", [], .list []⟩ ⟨200, .null, ""⟩
        ⟨201, .obj [("id", .str "p2")], ""⟩ =
      ([.post "resources/ip-pools"
          (ipv4Payload ⟨.str "a", "present", [], .list []⟩)],
       .exited true (.obj [("id", .str "p2")])) :=
  ⟨c6_amended_fetch_shape.1 (.list [.obj [("display_name", .str "a")]])
      ⟨.str "a", "present", [], .list []⟩ ⟨200, .null, ""⟩ ⟨201, .null, ""⟩ rfl,
   c6_amended_fetch_shape.2.1 [("total", .num 0)]
      ⟨.str "a", "present", [], .list []⟩ ⟨200, .null, ""⟩ ⟨201, .null, ""⟩ rfl,
   c6_amended_fetch_shape.2.2 ⟨.str "a", "present", [], .list []⟩
      ⟨200, .null, ""⟩ ⟨201, .obj [("id", .str "p2")], ""⟩ (.str "p2") rfl rfl⟩

/-- C7 counterexample: a create whose transport response carries status 500
is still reported as changed true with the failure body as data; the rack
type create branch never inspects the response status. -/
theorem c7_counterexample :
    rack_types (.obj [("items", .list [])])
        ⟨.null, .null, .str "rack1", .str "rt1", .null, .null, .null, "present"⟩
        ⟨200, .null, ""⟩ ⟨500, .obj [("errors", .str "server fault")], ""⟩ =
      ([.post "design/rack-types"
          (rackPayload
            ⟨.null, .null, .str "rack1", .str "rt1", .null, .null, .null,
             "present"⟩)],
       .exited true (.obj [("errors", .str "server fault")])) := rfl

/-- C7 amended: the engine never inspects the status of create or delete
responses: the rack type create and delete branches exit with changed true
and the response body whatever the status is (the status variables below
are unconstrained), and the only failure a pool create can surface is a
response body lacking the id key, which raises before reporting. -/
theorem c7_amended_status_unchecked :
    (∀ (items : List JVal) (p : RackParams) (d post : Resp) (m : IdMatch),
      scanId items p.id ⟨none, false⟩ = .ok m → m.provisioned = false →
      p.state = "present" →
      rack_types (.obj [("items", .list items)]) p d post =
        ([.post "design/rack-types" (rackPayload p)], .exited true post.json)) ∧
    (∀ (items : List JVal) (p : RackParams) (d post : Resp) (i : JVal),
      scanId items p.id ⟨none, false⟩ = .ok ⟨some i, true⟩ →
      p.state = "absent" →
      rack_types (.obj [("items", .list items)]) p d post =
        ([.delete ("design/rack-types/" ++ i.fstr)], .exited true d.json)) ∧
    (∀ (items : List JVal) (p : PoolParams) (d post : Resp) (er : PyErr)
        (m : PoolMatch),
      scanPool items p.display_name ⟨none, none, false⟩ = .ok m →
      m.provisioned = false → p.state = "present" →
      post.json.get "id" = .error er →
      ipv4_pool (.obj [("items", .list items)]) p d post =
        ([.post "resources/ip-pools" (ipv4Payload p)], .raised er)) := by
  refine ⟨?_, ?_, ?_⟩
  · intro items p d post m hscan hm hstate
    simp [rack_types, get_items, pyIter, hscan, hm, hstate]
  · intro items p d post i hscan hstate
    simp [rack_types, get_items, pyIter, hscan, hstate, optJ]
  · intro items p d post er m hscan hm hstate hid
    simp [ipv4_pool, JVal.isObj, get_items, pyIter, hscan, hm, hstate, hid]

/-- Witness for the amended C7 with status 500 mutation responses. -/
theorem c7_amended_status_unchecked_witness :
    rack_types (.obj [("items", .list [])])
        ⟨.null, .null, .str "r", .str "rt2", .null, .null, .null, "present"⟩
        ⟨200, .null, ""⟩ ⟨500, .str "boom", ""⟩ =
      ([.post "design/rack-types"
          (rackPayload
            ⟨.null, .null, .str "r", .str "rt2", .null, .null, .null,
             "present"⟩)],
       .exited true (.str "boom")) ∧
    rack_types (.obj [("items", .list [.obj [("id", .str "rt3")]])])
        ⟨.null, .null, .str "r", .str "rt3", .null, .null, .null, "absent"⟩
        ⟨500, .str "boom", ""⟩ ⟨201, .null, ""⟩ =
      ([.delete "design/rack-types/rt3"], .exited true (.str "boom")) ∧
    ipv4_pool (.obj [("items", .list [])])
        ⟨.str "a", "present", [], .list []⟩ ⟨200, .null, ""⟩
        ⟨500, .obj [("errors", .str "bad")], ""⟩ =
      ([.post "resources/ip-pools"
          (ipv4Payload ⟨.str "a", "present", [], .list []⟩)],
       .raised (.keyError "id")) :=
  ⟨c7_amended_status_unchecked.1 []
      ⟨.null, .null, .str "r", .str "rt2", .null, .null, .null, "present"⟩
      ⟨200, .null, ""⟩ ⟨500, .str "boom", ""⟩ ⟨none, false⟩ rfl rfl rfl,
   c7_amended_status_unchecked.2.1 [.obj [("id", .str "rt3")]]
      ⟨.null, .null, .str "r", .str "rt3", .null, .null, .null, "absent"⟩
      ⟨500, .str "boom", ""⟩ ⟨201, .null, ""⟩ (.str "rt3") rfl rfl,
   c7_amended_status_unchecked.2.2 []
      ⟨.str "a", "present", [], .list []⟩ ⟨200, .null, ""⟩
      ⟨500, .obj [("errors", .str "bad")], ""⟩ (.keyError "id")
      ⟨none, none, false⟩ rfl rfl rfl rfl⟩

/-- C8 counterexample: a templates declaration whose design_template dict
lacks the display_name identity key does not fail before any remote call:
the design core issues the inventory fetch first, and the KeyError only
surfaces afterwards, during the identity scan. -/
theorem c8_counterexample :
    designCoreTemplates ⟨.obj [], "absent"⟩
        ⟨200,
         .obj [("items",
           .list [.obj [("display_name", .str "t"), ("id", .str "t1")]])], ""⟩
        ⟨200, .null, ""⟩ ⟨201, .null, ""⟩ =
      ([.get "design/templates"], .raised (.keyError "display_name")) := rfl

/-- C8 amended: a templates declaration missing a value for its nested
identity key fails with a KeyError raised during the identity scan, after
the inventory fetch has already been issued, not before any remote call;
the failure surfaces as a module failure, not as a distinct identity
error. -/
theorem c8_amended_identity_after_fetch
    (p : TemplParams) (g d post : Resp) (er : PyErr) (x : JVal)
    (rest : List JVal) (dx : JVal)
    (hdt : p.design_template.get "display_name" = .error er)
    (hst : g.status_code = 200)
    (hjson : g.json = .obj [("items", .list (x :: rest))])
    (hx : x.get "display_name" = .ok dx) :
    designCoreTemplates p g d post =
      ([.get "design/templates"], .raised er) := by
  simp [designCoreTemplates, hst, hjson, JVal.isObj, templates, get_items,
        pyIter, scanTempl, hx, hdt]

/-- Witness for the amended C8 at a concrete snapshot with one template. -/
theorem c8_amended_identity_after_fetch_witness :
    designCoreTemplates ⟨.obj [("type", .str "rack_based")], "present"⟩
        ⟨200,
         .obj [("items",
           .list [.obj [("display_name", .str "t"), ("id", .str "t1")]])], ""⟩
        ⟨200, .null, ""⟩ ⟨201, .null, ""⟩ =
      ([.get "design/templates"], .raised (.keyError "display_name")) :=
  c8_amended_identity_after_fetch
    ⟨.obj [("type", .str "rack_based")], "present"⟩
    ⟨200,
     .obj [("items",
       .list [.obj [("display_name", .str "t"), ("id", .str "t1")]])], ""⟩
    ⟨200, .null, ""⟩ ⟨201, .null, ""⟩ (.keyError "display_name")
    (.obj [("display_name", .str "t"), ("id", .str "t1")]) [] (.str "t")
    rfl rfl rfl rfl

/-- C9 counterexample: a snapshot entry lacking the display_name identity
field does not behave as a non-match: the scan raises a KeyError and the
call aborts instead of completing. -/
theorem c9_counterexample :
    ipv4_pool (.obj [("items", .list [.obj [("id", .str "p1")]])])
        ⟨.str "x", "absent", [], .list []⟩ ⟨200, .null, ""⟩ ⟨201, .null, ""⟩ =
      ([], .raised (.keyError "display_name")) := rfl

/-- C9 amended: entries carrying the identity field with a different value
are treated as non-matches and the scan completes without error; but an
entry on which the identity field is absent raises a KeyError that aborts
the reconciliation with no mutation issued, surfaced as a module
failure. -/
theorem c9_amended_missing_field_raises :
    (∀ (xs ys : List JVal) (e : JVal) (p : PoolParams) (d post : Resp)
        (er : PyErr),
      (∀ x ∈ xs, ∃ dx,
        x.get "display_name" = .ok dx ∧ (dx == p.display_name) = false) →
      e.get "display_name" = .error er →
      ipv4_pool (.obj [("items", .list (xs ++ e :: ys))]) p d post =
        ([], .raised er)) ∧
    (∀ (items : List JVal) (p : PoolParams) (d post : Resp),
      (∀ x ∈ items, ∃ dx,
        x.get "display_name" = .ok dx ∧ (dx == p.display_name) = false) →
      p.state = "absent" →
      ipv4_pool (.obj [("items", .list items)]) p d post =
        ([], .exited false (.str "IP Pool does not exist, exiting"))) := by
  constructor
  · intro xs ys e p d post er hxs he
    have h0 := scanPool_nomatch xs p.display_name ⟨none, none, false⟩ hxs
    have h1 : scanPool (xs ++ e :: ys) p.display_name ⟨none, none, false⟩ =
        .error er := by
      rw [scanPool_append, h0]
      simp [scanPool, he]
    simp [ipv4_pool, JVal.isObj, get_items, pyIter, h1]
  · intro items p d post hxs hstate
    have h0 := scanPool_nomatch items p.display_name ⟨none, none, false⟩ hxs
    simp [ipv4_pool, JVal.isObj, get_items, pyIter, h0, hstate]

/-- Witness for the amended C9: one entry with a different display_name
followed by one entry lacking the field, and an all-non-matching snapshot
with desired state absent. -/
theorem c9_amended_missing_field_raises_witness :
    ipv4_pool
        (.obj [("items", .list
          [.obj [("display_name", .str "b"), ("id", .str "q1")],
           .obj [("id", .str "p1")]])])
        ⟨.str "a", "absent", [], .list []⟩ ⟨200, .null, ""⟩ ⟨201, .null, ""⟩ =
      ([], .raised (.keyError "display_name")) ∧
    ipv4_pool
        (.obj [("items", .list
          [.obj [("display_name", .str "b"), ("id", .str "q1")]])])
        ⟨.str "a", "absent", [], .list []⟩ ⟨200, .null, ""⟩ ⟨201, .null, ""⟩ =
      ([], .exited false (.str "IP Pool does not exist, exiting")) := by
  constructor
  · exact c9_amended_missing_field_raises.1
      [.obj [("display_name", .str "b"), ("id", .str "q1")]] []
      (.obj [("id", .str "p1")])
      ⟨.str "a", "absent", [], .list []⟩ ⟨200, .null, ""⟩ ⟨201, .null, ""⟩
      (.keyError "display_name")
      (by
        intro x hx
        rcases List.mem_singleton.mp hx with rfl
        exact ⟨.str "b", rfl, rfl⟩)
      rfl
  · exact c9_amended_missing_field_raises.2
      [.obj [("display_name", .str "b"), ("id", .str "q1")]]
      ⟨.str "a", "absent", [], .list []⟩ ⟨200, .null, ""⟩ ⟨201, .null, ""⟩
      (by
        intro x hx
        rcases List.mem_singleton.mp hx with rfl
        exact ⟨.str "b", rfl, rfl⟩)
      rfl

end Apstra
